import Mathlib

/-!
Shallow embedding of the real-time notification client
(`RealTimeNotifications` in `src/static/js/main.js`).

The client owns one WebSocket handle, an unread counter, a bounded
dropdown list of recent notifications, and a reconnect/backoff state.
DOM rendering that carries client state (badge text/visibility, the
read/unread class of a dropdown item, the connection status indicator)
is modelled as fields of the state; leaf side effects that carry no
client state (toast, sound, OS notification, page title, console logs)
are omitted.  Times are in milliseconds, as in the source
(`reconnectDelay = 1000` is the spec's one time unit).
-/

/-- The readyState of a browser WebSocket handle. -/
inductive ReadyState
  | CONNECTING
  | OPEN
  | CLOSING
  | CLOSED
deriving DecidableEq

/-- An inbound notification payload (`data.notification`):
id, type tag and content as rendered into the dropdown. -/
structure Notification where
  id : String
  ntype : String
  content : String
deriving DecidableEq

/-- A `.notification-item` element of the dropdown: the notification it
renders plus whether it carries the `read` class (initially `unread`). -/
structure NotifItem where
  notif : Notification
  read : Bool
deriving DecidableEq

/-- The outbound JSON envelope sent by `markAsRead`:
`\x7btype: 'mark_read', notification_id: ...\x7d`. -/
structure OutMsg where
  type : String
  notification_id : String
deriving DecidableEq

/-- The client state of `RealTimeNotifications`.

`socket` is the WebSocket handle: `none` is the constructor's `null`,
`some (i, rs)` a handle with identity `i` (its allocation number) in
readyState `rs`.  `socketsCreated` counts `new WebSocket(...)`
constructions, so a changed value witnesses that a new channel object
was created.  `badgeText`, `badgeVisible` mirror the
`.notification-badge` element; `connStatus` mirrors the last value
passed to `updateConnectionStatus`. -/
structure RTState where
  socket : Option (Nat × ReadyState)
  socketsCreated : Nat
  notificationCount : Int
  isConnected : Bool
  reconnectAttempts : Nat
  maxReconnectAttempts : Nat
  reconnectDelay : Nat
  dropdown : List NotifItem
  badgeText : String
  badgeVisible : Bool
  connStatus : Bool
deriving DecidableEq

/-- The state built by the constructor: `socket = null`,
`notificationCount = 0`, `isConnected = false`, `reconnectAttempts = 0`,
`maxReconnectAttempts = 5`, `reconnectDelay = 1000`. -/
def freshState : RTState :=
  { socket := none
    socketsCreated := 0
    notificationCount := 0
    isConnected := false
    reconnectAttempts := 0
    maxReconnectAttempts := 5
    reconnectDelay := 1000
    dropdown := []
    badgeText := ""
    badgeVisible := false
    connStatus := false }

/-- The guard `this.socket && this.socket.readyState === WebSocket.OPEN`. -/
def sockOpen (s : RTState) : Bool :=
  match s.socket with
  | some (_, ReadyState.OPEN) => true
  | _ => false

/-- `scheduleReconnect`: if `reconnectAttempts < maxReconnectAttempts`,
increment the counter and schedule a retry after
`reconnectDelay * 2 ^ (reconnectAttempts - 1)` ms (counter already
incremented); otherwise do nothing.  The second component is the
scheduled delay, `none` when no retry is scheduled. -/
def scheduleReconnect (s : RTState) : RTState × Option Nat :=
  if s.reconnectAttempts < s.maxReconnectAttempts then
    let attempts' := s.reconnectAttempts + 1
    let delay := s.reconnectDelay * 2 ^ (attempts' - 1)
    ({ s with reconnectAttempts := attempts' }, some delay)
  else
    (s, none)

/-- `connectWebSocket`: returns early when the socket exists and is
`OPEN`; otherwise constructs a new WebSocket (a fresh handle in
readyState `CONNECTING`).  `ctorFails` models the `catch` branch
(construction threw), which calls `scheduleReconnect`.  The second
component is the delay scheduled by that branch, if any. -/
def connectWebSocket (ctorFails : Bool) (s : RTState) : RTState × Option Nat :=
  if sockOpen s then
    (s, none)
  else if ctorFails then
    scheduleReconnect s
  else
    ({ s with
        socket := some (s.socketsCreated, ReadyState.CONNECTING)
        socketsCreated := s.socketsCreated + 1 }, none)

/-- The `socket.onopen` handler: the handle has transitioned to `OPEN`;
set `isConnected = true`, reset `reconnectAttempts = 0` and
`reconnectDelay = 1000`, and call `updateConnectionStatus(true)`. -/
def onopen (s : RTState) : RTState :=
  { s with
      socket := s.socket.map (fun p => (p.1, ReadyState.OPEN))
      isConnected := true
      reconnectAttempts := 0
      reconnectDelay := 1000
      connStatus := true }

/-- The `socket.onclose` handler: the handle has transitioned to
`CLOSED`; set `isConnected = false`, call
`updateConnectionStatus(false)`, then `scheduleReconnect`.  The second
component is the scheduled delay, if any. -/
def onclose (s : RTState) : RTState × Option Nat :=
  scheduleReconnect
    { s with
        socket := s.socket.map (fun p => (p.1, ReadyState.CLOSED))
        isConnected := false
        connStatus := false }

/-- The `socket.onerror` handler: set `isConnected = false` and call
`updateConnectionStatus(false)`.  The handler body contains no call to
`scheduleReconnect`, so the second component is always `none`. -/
def onerror (s : RTState) : RTState × Option Nat :=
  ({ s with isConnected := false, connStatus := false }, none)

/-- `updateNotificationCount(count)`: store the count, then render the
badge: when `count > 0` set its text to `'99+'` if `count > 99` else
the count itself and show it; otherwise hide it (text untouched). -/
def updateNotificationCount (count : Int) (s : RTState) : RTState :=
  let s1 := { s with notificationCount := count }
  if count > 0 then
    { s1 with
        badgeText := if count > 99 then "99+" else toString count
        badgeVisible := true }
  else
    { s1 with badgeVisible := false }

/-- The list operation of `addToNotificationDropdown`: `insertBefore`
the new (unread) item at the front, then if more than 10 items remain,
remove the last one. -/
def dropdownInsert (n : Notification) (l : List NotifItem) : List NotifItem :=
  let l' := { notif := n, read := false } :: l
  if 10 < l'.length then l'.dropLast else l'

/-- `addToNotificationDropdown(notification)`: prepend an unread item
for the notification and trim the list to 10 entries. -/
def addToNotificationDropdown (n : Notification) (s : RTState) : RTState :=
  { s with dropdown := dropdownInsert n s.dropdown }

/-- The list operation of `removeFromNotificationDropdown`:
`document.querySelector` finds the first item whose
`data-notification-id` matches, and that item (only) swaps its `unread`
class for `read`.  No match: no change. -/
def markFirstRead (nid : String) : List NotifItem → List NotifItem
  | [] => []
  | item :: rest =>
      if item.notif.id = nid then { item with read := true } :: rest
      else item :: markFirstRead nid rest

/-- `removeFromNotificationDropdown(notificationId)`: mark the first
matching dropdown item read (despite the name, nothing is removed). -/
def removeFromNotificationDropdown (nid : String) (s : RTState) : RTState :=
  { s with dropdown := markFirstRead nid s.dropdown }

/-- `handleNewNotification(notification)`: increment the counter, call
`updateNotificationCount` with the new value, then (after the toast,
sound and browser-notification side effects, which carry no client
state) `addToNotificationDropdown`. -/
def handleNewNotification (n : Notification) (s : RTState) : RTState :=
  let s1 := { s with notificationCount := s.notificationCount + 1 }
  let s2 := updateNotificationCount s1.notificationCount s1
  addToNotificationDropdown n s2

/-- `handleNotificationRead(notificationId)`: if the counter is
positive, decrement it and call `updateNotificationCount` with the new
value; then `removeFromNotificationDropdown`. -/
def handleNotificationRead (nid : String) (s : RTState) : RTState :=
  let s1 :=
    if s.notificationCount > 0 then
      updateNotificationCount (s.notificationCount - 1) s
    else s
  removeFromNotificationDropdown nid s1

/-- An inbound message, tagged by its `type` field. -/
inductive InMsg
  | notification_count (count : Int)
  | new_notification (n : Notification)
  | notification_read (nid : String)
  | other (tag : String)
deriving DecidableEq

/-- `handleMessage(data)`: dispatch on `data.type`; unrecognized types
fall through the `switch` unchanged. -/
def handleMessage : InMsg → RTState → RTState
  | InMsg.notification_count c, s => updateNotificationCount c s
  | InMsg.new_notification n, s => handleNewNotification n s
  | InMsg.notification_read nid, s => handleNotificationRead nid s
  | InMsg.other _, s => s

/-- `markAsRead(notificationId)`: if the socket exists and is `OPEN`,
send `\x7btype: 'mark_read', notification_id\x7d`; otherwise do
nothing.  The second component is the sent message, if any. -/
def markAsRead (nid : String) (s : RTState) : RTState × Option OutMsg :=
  if sockOpen s then
    (s, some { type := "mark_read", notification_id := nid })
  else
    (s, none)

/-- One connect attempt that fails immediately: `connectWebSocket`
succeeds in constructing the socket, which then closes at once and
fires `onclose`.  The second component is the reconnect delay
scheduled by that failure, if any. -/
def failedAttempt (s : RTState) : RTState × Option Nat :=
  onclose (connectWebSocket false s).1

/-- Run `n` immediately-failing connect attempts in sequence,
collecting the scheduled reconnect delays in order. -/
def runFailures : Nat → RTState → RTState × List Nat
  | 0, s => (s, [])
  | Nat.succ k, s =>
      let p := failedAttempt s
      let q := runFailures k p.1
      (q.1, p.2.toList ++ q.2)

/-- Deliver a sequence of `new_notification` events in order. -/
def runNewNotifications : List Notification → RTState → RTState
  | [], s => s
  | n :: rest, s => runNewNotifications rest (handleNewNotification n s)

/-- A two-item dropdown used as a concrete test state. -/
def ddState : RTState :=
  { freshState with
      dropdown :=
        [ { notif := { id := "n1", ntype := "message", content := "hi" }, read := false },
          { notif := { id := "n2", ntype := "system", content := "x" }, read := false } ] }

theorem updateNotificationCount_count (c : Int) (s : RTState) :
    (updateNotificationCount c s).notificationCount = c := by
  unfold updateNotificationCount
  split <;> rfl

theorem updateNotificationCount_dropdown (c : Int) (s : RTState) :
    (updateNotificationCount c s).dropdown = s.dropdown := by
  unfold updateNotificationCount
  split <;> rfl

theorem handleNewNotification_count (n : Notification) (s : RTState) :
    (handleNewNotification n s).notificationCount = s.notificationCount + 1 := by
  unfold handleNewNotification addToNotificationDropdown
  simp [updateNotificationCount_count]

theorem handleNewNotification_dropdown (n : Notification) (s : RTState) :
    (handleNewNotification n s).dropdown = dropdownInsert n s.dropdown := by
  unfold handleNewNotification addToNotificationDropdown
  simp [updateNotificationCount_dropdown]

theorem runFailures_split (m n : Nat) (s : RTState) :
    runFailures (m + n) s =
      ((runFailures n (runFailures m s).1).1,
        (runFailures m s).2 ++ (runFailures n (runFailures m s).1).2) := by
  induction m generalizing s with
  | zero => simp [runFailures]
  | succ k ih =>
      rw [Nat.succ_add]
      simp only [runFailures, ih, List.append_assoc]

theorem failedAttempt_stuck (s : RTState)
    (h : s.maxReconnectAttempts ≤ s.reconnectAttempts) :
    (failedAttempt s).2 = none ∧
      (failedAttempt s).1.reconnectAttempts = s.reconnectAttempts ∧
      (failedAttempt s).1.maxReconnectAttempts = s.maxReconnectAttempts := by
  have hlt : ¬ s.reconnectAttempts < s.maxReconnectAttempts := by omega
  unfold failedAttempt connectWebSocket onclose scheduleReconnect
  split <;> simp [hlt]

theorem runFailures_stuck (n : Nat) (s : RTState)
    (h : s.maxReconnectAttempts ≤ s.reconnectAttempts) :
    (runFailures n s).2 = [] := by
  induction n generalizing s with
  | zero => rfl
  | succ k ih =>
      obtain ⟨h1, h2, h3⟩ := failedAttempt_stuck s h
      simp only [runFailures, h1, Option.toList_none, List.nil_append]
      exact ih _ (by rw [h2, h3]; exact h)

theorem markFirstRead_map_id (nid : String) (l : List NotifItem) :
    (markFirstRead nid l).map (fun it => it.notif.id) =
      l.map (fun it => it.notif.id) := by
  induction l with
  | nil => rfl
  | cons item rest ih =>
      unfold markFirstRead
      split
      · simp
      · simpa using ih

theorem markFirstRead_first (nid : String) (l : List NotifItem)
    (h : nid ∈ l.map (fun it => it.notif.id)) :
    ∃ l1 item l2, l = l1 ++ item :: l2 ∧ item.notif.id = nid ∧
      nid ∉ l1.map (fun it => it.notif.id) ∧
      markFirstRead nid l = l1 ++ { item with read := true } :: l2 := by
  induction l with
  | nil => simp at h
  | cons a rest ih =>
      by_cases ha : a.notif.id = nid
      · exact ⟨[], a, rest, by simp, ha, by simp, by simp [markFirstRead, ha]⟩
      · have h' : nid ∈ rest.map (fun it => it.notif.id) := by
          rcases List.mem_cons.mp h with h0 | h0
          · exact absurd h0.symm ha
          · exact h0
        obtain ⟨l1, item, l2, hl, hid, hnin, hmark⟩ := ih h'
        refine ⟨a :: l1, item, l2, by simp [hl], hid, ?_, ?_⟩
        · intro hc
          rcases List.mem_cons.mp hc with h0 | h0
          · exact ha h0.symm
          · exact hnin h0
        · simp [markFirstRead, ha, hmark]

theorem take_append_take {α : Type} (A B : List α) :
    (A ++ B.take 10).take 10 = (A ++ B).take 10 := by
  rw [List.take_append_eq_append_take, List.take_append_eq_append_take,
    List.take_take, Nat.min_eq_left (Nat.sub_le 10 A.length)]

theorem dropdownInsert_take (n : Notification) (l : List NotifItem)
    (h : l.length ≤ 10) :
    dropdownInsert n l = ({ notif := n, read := false } :: l).take 10 := by
  unfold dropdownInsert
  dsimp only
  split
  · next hlen =>
      simp only [List.length_cons] at hlen
      have h10 : l.length = 10 := by omega
      rw [List.dropLast_eq_take]
      simp [h10]
  · next hlen =>
      rw [List.take_of_length_le]
      simp only [List.length_cons]
      simp at hlen
      omega

theorem runNew_dropdown (ns : List Notification) (s : RTState)
    (h : s.dropdown.length ≤ 10) :
    (runNewNotifications ns s).dropdown =
      ((ns.map fun n => { notif := n, read := false : NotifItem }).reverse ++
        s.dropdown).take 10 := by
  induction ns generalizing s with
  | nil =>
      simpa [runNewNotifications] using (List.take_of_length_le h).symm
  | cons n rest ih =>
      have hnext : (handleNewNotification n s).dropdown.length ≤ 10 := by
        rw [handleNewNotification_dropdown, dropdownInsert_take n _ h]
        exact List.length_take_le 10 _
      rw [runNewNotifications, ih _ hnext, handleNewNotification_dropdown,
        dropdownInsert_take n _ h]
      rw [take_append_take]
      simp [List.append_assoc]

/-- C1: from the fresh state (`reconnectAttempts = 0`,
`reconnectDelay = 1000` ms, the base unit), a run in which every connect
attempt fails immediately schedules exactly 5 retries, with delays
1000, 2000, 4000, 8000, 16000 ms (1, 2, 4, 8, 16 base units,
`reconnectDelay * 2 ^ (reconnectAttempts - 1)` with the counter
incremented first); after the 5th failure, no matter how many further
failing attempts occur, no further retry is scheduled. -/
theorem C1_backoff_sequence (n : Nat) :
    (runFailures (5 + n) freshState).2 = [1000, 2000, 4000, 8000, 16000] := by
  have h5 : (runFailures 5 freshState).2 = [1000, 2000, 4000, 8000, 16000] := by
    decide
  have hs : (runFailures 5 freshState).1.maxReconnectAttempts ≤
      (runFailures 5 freshState).1.reconnectAttempts := by decide
  rw [runFailures_split, h5, runFailures_stuck n _ hs, List.append_nil]

/-- C2: the `onopen` handler always resets `reconnectAttempts` to 0,
`reconnectDelay` to its base value 1000 ms (1 time unit) and sets
`isConnected`; in particular after 2 failed attempts followed by a
successful open, the next failure schedules a 1000 ms delay (1 unit),
not 4000 ms (4 units). -/
theorem C2_open_resets_backoff :
    (∀ s : RTState,
      (onopen s).reconnectAttempts = 0 ∧ (onopen s).reconnectDelay = 1000 ∧
        (onopen s).isConnected = true) ∧
      (onclose (onopen (runFailures 2 freshState).1)).2 = some 1000 :=
  ⟨fun _ => ⟨rfl, rfl, rfl⟩, by decide⟩

/-- C3 counterexample: the guard of `connectWebSocket` only returns
early when the socket is `OPEN`.  From the fresh state, one connect
call leaves the socket `CONNECTING`; a second connect call while still
`CONNECTING` is not a no-op: it constructs a new channel object
(`socketsCreated` grows by 1) and changes the client state. -/
theorem C3_connect_connecting_cex :
    (connectWebSocket false freshState).1.socket =
        some (0, ReadyState.CONNECTING) ∧
      (connectWebSocket false (connectWebSocket false freshState).1).1 ≠
        (connectWebSocket false freshState).1 ∧
      (connectWebSocket false (connectWebSocket false freshState).1).1.socketsCreated =
        (connectWebSocket false freshState).1.socketsCreated + 1 := by
  decide

/-- C3 amended: a call to `connectWebSocket` is a no-op (no new channel
object, no state change, nothing scheduled) whenever the socket exists
and is already `OPEN`; while merely `CONNECTING`, the call instead
constructs a new channel object superseding the prior one. -/
theorem C3_connect_noop_when_open (s : RTState) (f : Bool)
    (h : sockOpen s = true) :
    connectWebSocket f s = (s, none) := by
  unfold connectWebSocket
  simp [h]

theorem C3_connect_noop_when_open_witness :
    connectWebSocket false (onopen (connectWebSocket false freshState).1) =
      (onopen (connectWebSocket false freshState).1, none) :=
  C3_connect_noop_when_open _ false (by decide)

/-- C4 counterexample: with reconnect attempts far from exhausted
(0 of 5), the `onerror` handler sets `isConnected = false` and updates
the status UI but schedules no reconnect attempt, contrary to the
claim that every channel error schedules one. -/
theorem C4_error_no_reconnect_cex :
    (connectWebSocket false freshState).1.reconnectAttempts <
        (connectWebSocket false freshState).1.maxReconnectAttempts ∧
      (onerror (connectWebSocket false freshState).1).1.isConnected = false ∧
      (onerror (connectWebSocket false freshState).1).2 = none := by
  decide

/-- C4 amended: every channel close event transitions the client to
disconnected, updates the status UI, and schedules a reconnect exactly
when attempts are not yet exhausted; every channel error event
transitions to disconnected and updates the status UI but never itself
schedules a reconnect (scheduling happens on the close event that
follows a failed channel). -/
theorem C4_close_error_handling (s : RTState) :
    ((onclose s).1.isConnected = false ∧ (onclose s).1.connStatus = false ∧
      ((onclose s).2.isSome ↔ s.reconnectAttempts < s.maxReconnectAttempts)) ∧
    ((onerror s).1.isConnected = false ∧ (onerror s).1.connStatus = false ∧
      (onerror s).2 = none) := by
  refine ⟨⟨?_, ?_, ?_⟩, rfl, rfl, rfl⟩
  · unfold onclose scheduleReconnect
    split <;> rfl
  · unfold onclose scheduleReconnect
    split <;> rfl
  · unfold onclose scheduleReconnect
    split
    · next hlt => simpa using hlt
    · next hlt => simpa using hlt

/-- C5: handling a `new_notification` message increments the unread
count by exactly 1, and over any sequence of `new_notification` events
(no reads, no `notification_count` resync in between) the count grows
by exactly the number of events. -/
theorem C5_increment_by_one :
    (∀ (s : RTState) (n : Notification),
      (handleNewNotification n s).notificationCount =
        s.notificationCount + 1) ∧
    (∀ (ns : List Notification) (s : RTState),
      (runNewNotifications ns s).notificationCount =
        s.notificationCount + ns.length) := by
  refine ⟨fun s n => handleNewNotification_count n s, ?_⟩
  intro ns
  induction ns with
  | nil => intro s; simp [runNewNotifications]
  | cons n rest ih =>
      intro s
      rw [runNewNotifications, ih, handleNewNotification_count]
      simp only [List.length_cons]
      push_cast
      ring

/-- C6: handling a `notification_read` message — for any id, present in
the dropdown or not — decrements the unread count by 1 floored at 0
(a count of 0 stays 0), and the handler is a total function (no
crash). -/
theorem C6_read_floored_at_zero (s : RTState) (nid : String)
    (h : 0 ≤ s.notificationCount) :
    (handleNotificationRead nid s).notificationCount =
      max (s.notificationCount - 1) 0 := by
  unfold handleNotificationRead removeFromNotificationDropdown
  split
  · next hpos => simp only [updateNotificationCount_count]; omega
  · next hpos => simp only []; omega

theorem C6_read_floored_at_zero_witness :
    (handleNotificationRead "ghost" freshState).notificationCount = 0 := by
  rw [C6_read_floored_at_zero freshState "ghost" (by decide)]
  decide

/-- C7: handling a `notification_read` message whose id is present in
the dropdown preserves the membership and ordering of the list (the
sequence of ids is unchanged) and marks exactly the first entry with
that id as read, leaving every other entry untouched. -/
theorem C7_read_preserves_list (s : RTState) (nid : String) :
    ((removeFromNotificationDropdown nid s).dropdown.map
        (fun it => it.notif.id) = s.dropdown.map (fun it => it.notif.id)) ∧
    (nid ∈ s.dropdown.map (fun it => it.notif.id) →
      ∃ l1 item l2, s.dropdown = l1 ++ item :: l2 ∧ item.notif.id = nid ∧
        nid ∉ l1.map (fun it => it.notif.id) ∧
        (removeFromNotificationDropdown nid s).dropdown =
          l1 ++ { item with read := true } :: l2) :=
  ⟨markFirstRead_map_id nid s.dropdown,
    fun h => markFirstRead_first nid s.dropdown h⟩

theorem C7_read_preserves_list_witness :
    ∃ l1 item l2,
      ddState.dropdown = l1 ++ item :: l2 ∧ item.notif.id = "n2" ∧
        "n2" ∉ l1.map (fun it => it.notif.id) ∧
        (removeFromNotificationDropdown "n2" ddState).dropdown =
          l1 ++ { item with read := true } :: l2 :=
  (C7_read_preserves_list ddState "n2").2 (by decide)

/-- C8: over any sequence of `new_notification` arrivals from the fresh
state, the dropdown holds exactly the (at most) 10 most recent arrivals
in most-recent-first order — so it never exceeds 10 entries, each new
notification is inserted at the front, and on overflow the oldest
(last) entry is evicted. -/
theorem C8_recent_list_cap (ns : List Notification) :
    (runNewNotifications ns freshState).dropdown =
      ((ns.map fun n => { notif := n, read := false : NotifItem }).reverse).take
        10 ∧
    (runNewNotifications ns freshState).dropdown.length ≤ 10 := by
  have h := runNew_dropdown ns freshState (by decide)
  rw [show freshState.dropdown = [] from rfl, List.append_nil] at h
  constructor
  · exact h
  · rw [h]
    exact List.length_take_le 10 _

/-- C9: `markAsRead` sends `\x7btype: 'mark_read', notification_id\x7d`
over the channel exactly when the socket exists and is currently open;
otherwise it sends nothing — and in both cases it never queues,
retries, or changes any local client state. -/
theorem C9_mark_read_iff_open (s : RTState) (nid : String) :
    (markAsRead nid s).1 = s ∧
    ((markAsRead nid s).2 =
        some { type := "mark_read", notification_id := nid } ↔
      sockOpen s = true) ∧
    ((markAsRead nid s).2 = none ↔ sockOpen s = false) := by
  unfold markAsRead
  by_cases h : sockOpen s = true <;> simp [h]

/-- C10: `updateNotificationCount` renders the badge with the literal
text `'99+'` when the count exceeds 99, with the count itself (visible)
when it is between 1 and 99, and hides the badge when the count is at
most 0. -/
theorem C10_badge_clipping (c : Int) (s : RTState) :
    (99 < c → (updateNotificationCount c s).badgeText = "99+" ∧
      (updateNotificationCount c s).badgeVisible = true) ∧
    (1 ≤ c → c ≤ 99 →
      (updateNotificationCount c s).badgeText = toString c ∧
        (updateNotificationCount c s).badgeVisible = true) ∧
    (c ≤ 0 → (updateNotificationCount c s).badgeVisible = false) := by
  unfold updateNotificationCount
  refine ⟨fun h => ?_, fun h1 h2 => ?_, fun h => ?_⟩
  · have h0 : c > 0 := by omega
    simp [h0, h]
  · have h0 : c > 0 := by omega
    have h99 : ¬ c > 99 := by omega
    simp [h0, h99]
  · have h0 : ¬ c > 0 := by omega
    simp [h0]

theorem C10_badge_clipping_witness :
    (updateNotificationCount 150 freshState).badgeText = "99+" ∧
      (updateNotificationCount 3 freshState).badgeText = toString (3 : Int) ∧
      (updateNotificationCount 3 freshState).badgeVisible = true ∧
      (updateNotificationCount 0 freshState).badgeVisible = false :=
  ⟨((C10_badge_clipping 150 freshState).1 (by decide)).1,
    ((C10_badge_clipping 3 freshState).2.1 (by decide) (by decide)).1,
    ((C10_badge_clipping 3 freshState).2.1 (by decide) (by decide)).2,
    (C10_badge_clipping 0 freshState).2.2 (by decide)⟩
